import Mathlib

/-!
Verification of the loom-shuttle CLI core: configuration resolution,
subject naming, the NATS connection cache, and command-layer error
surfacing.  Definitions are shallow embeddings of the TypeScript
sources; where a source file is absent from the repository snapshot
(utils/config-file.ts, api/client.ts), the definition is modelled from
the specification, as its doc comment states.
-/

/-! ## JavaScript string primitives used by the sources -/

/-- Model of the JavaScript String.prototype.startsWith test. -/
def startsWithJS (s pre : String) : Bool :=
  pre.data.isPrefixOf s.data

/-- Model of the JavaScript String.prototype.trim: strip whitespace from
both ends. -/
def trimJS (s : String) : String :=
  ⟨((s.data.dropWhile Char.isWhitespace).reverse.dropWhile Char.isWhitespace).reverse⟩

/-- Model of the JavaScript expression `v || d` on an optional string:
absent and empty strings are falsy and fall through to the default. -/
def jsFalsyOrString (v : Option String) (d : String) : String :=
  match v with
  | none => d
  | some s => if s = "" then d else s

/-! ## Configuration record (from src/SHARED_DEPENDENCIES.md, CLIConfiguration) -/

/-- The CLI configuration record.  Every field is optional, as in a
partial JSON object; the interface in SHARED_DEPENDENCIES.md marks
natsUrl and projectId required on the fully resolved record, but the
persisted file, the environment layer and save payloads are all partial,
so the embedding keeps every field optional. -/
structure CLIConfiguration where
  natsUrl : Option String := none
  projectId : Option String := none
  natsCredentials : Option String := none
  defaultBoundary : Option String := none
  defaultPriority : Option Int := none
  outputFormat : Option String := none
  apiUrl : Option String := none
  apiToken : Option String := none
deriving DecidableEq, Repr

/-- From src/SHARED_DEPENDENCIES.md lines 84 to 91: the built-in default
values shipped in the shared package. -/
def DEFAULT_CLI_CONFIG : CLIConfiguration :=
  { natsUrl := some "nats://localhost:4222"
    defaultPriority := some 5
    outputFormat := some "table" }

/-- The recognized environment variables, one per field (from the tests
in src/src/__tests__/config-file.test.ts and spec section 6). -/
structure EnvVars where
  NATS_URL : Option String := none
  PROJECT_ID : Option String := none
  LOOM_API_URL : Option String := none
  LOOM_API_TOKEN : Option String := none
deriving DecidableEq, Repr

/-- Modelled from the spec: utils/config-file.ts is absent from the
repository snapshot (only its tests remain).  The environment layer maps
each recognized variable to exactly one configuration field. -/
def envLayer (e : EnvVars) : CLIConfiguration :=
  { natsUrl := e.NATS_URL
    projectId := e.PROJECT_ID
    apiUrl := e.LOOM_API_URL
    apiToken := e.LOOM_API_TOKEN }

/-- Shallow merge of two partial configurations: a field of `over` that
is present overwrites the field of `base`; an absent field never
overwrites. -/
def mergeConfig (base over : CLIConfiguration) : CLIConfiguration :=
  { natsUrl := over.natsUrl.or base.natsUrl
    projectId := over.projectId.or base.projectId
    natsCredentials := over.natsCredentials.or base.natsCredentials
    defaultBoundary := over.defaultBoundary.or base.defaultBoundary
    defaultPriority := over.defaultPriority.or base.defaultPriority
    outputFormat := over.outputFormat.or base.outputFormat
    apiUrl := over.apiUrl.or base.apiUrl
    apiToken := over.apiToken.or base.apiToken }

/-- Modelled from the spec: the built-in defaults layer of loadConfig,
DEFAULT_CLI_CONFIG together with the project id "default" required by
end-to-end scenario 1 and the loadConfig tests. -/
def builtinDefaults : CLIConfiguration :=
  { DEFAULT_CLI_CONFIG with projectId := some "default" }

/-- Modelled from the spec: the projectOverride step of loadConfig, which
applies only to the project id and only if the override is non-empty
(JavaScript truthiness). -/
def applyProjectOverride (o : Option String) (c : CLIConfiguration) : CLIConfiguration :=
  match o with
  | none => c
  | some s => if s = "" then c else { c with projectId := some s }

/-- Modelled from the spec: loadConfig of utils/config-file.ts, which is
absent from the repository snapshot (only its tests remain).  The four
sources are merged in ascending precedence: built-in defaults, the
parsed configuration file (a missing file is the empty record), the
recognized environment variables, and the projectOverride.  The file
system read is abstracted into the `file` argument. -/
def loadConfig (file : CLIConfiguration) (env : EnvVars) (projectOverride : Option String) :
    CLIConfiguration :=
  applyProjectOverride projectOverride
    (mergeConfig (mergeConfig builtinDefaults file) (envLayer env))

/-- Modelled from the spec: saveConfig of utils/config-file.ts, which is
absent from the repository snapshot (only its tests remain).  It reads
the existing file content (empty record when the file is absent),
shallow-merges the partial payload on top and writes the result back;
the embedding returns the written content. -/
def saveConfig (existing partial_ : CLIConfiguration) : CLIConfiguration :=
  mergeConfig existing partial_

/-- The override layer as a single optional value: the project id that a
non-empty projectOverride supplies, `none` otherwise (specification-side
helper used to state the precedence theorem). -/
def overrideLayer (o : Option String) : Option String :=
  match o with
  | none => none
  | some s => if s = "" then none else some s

/-! ## validateConfig (modelled from the spec and its tests) -/

/-- Rule 1 of validateConfig: the transport endpoint, when present, must
use the reserved nats scheme. -/
def natsUrlViolations (c : CLIConfiguration) : List String :=
  match c.natsUrl with
  | none => []
  | some u => if startsWithJS u "nats://" then [] else ["natsUrl must start with nats://"]

/-- Rule 2 of validateConfig: the default priority, when present, must
lie between 1 and 10. -/
def priorityViolations (c : CLIConfiguration) : List String :=
  match c.defaultPriority with
  | none => []
  | some p => if 1 ≤ p ∧ p ≤ 10 then [] else ["defaultPriority must be between 1 and 10"]

/-- Rule 3 of validateConfig: the default boundary, when present, must be
non-empty after trimming. -/
def boundaryViolations (c : CLIConfiguration) : List String :=
  match c.defaultBoundary with
  | none => []
  | some b => if trimJS b = "" then ["defaultBoundary must be a non-empty string"] else []

/-- Rule 4 of validateConfig: the output format, when present, must be
exactly table or json. -/
def outputFormatViolations (c : CLIConfiguration) : List String :=
  match c.outputFormat with
  | none => []
  | some f =>
    if f = "table" ∨ f = "json" then []
    else ["outputFormat must be either \x22table\x22 or \x22json\x22"]

/-- Modelled from the spec: validateConfig of utils/config-file.ts, which
is absent from the repository snapshot (only its tests remain).  All four
rules are checked in order into one accumulated list of human-readable
violations; an empty list means valid.  The function is a total pure
function, so in the embedding it trivially never raises. -/
def validateConfig (c : CLIConfiguration) : List String :=
  let errors : List String := []
  let errors := errors ++
    (match c.natsUrl with
     | none => []
     | some u => if startsWithJS u "nats://" then [] else ["natsUrl must start with nats://"])
  let errors := errors ++
    (match c.defaultPriority with
     | none => []
     | some p => if 1 ≤ p ∧ p ≤ 10 then [] else ["defaultPriority must be between 1 and 10"])
  let errors := errors ++
    (match c.defaultBoundary with
     | none => []
     | some b => if trimJS b = "" then ["defaultBoundary must be a non-empty string"] else [])
  let errors := errors ++
    (match c.outputFormat with
     | none => []
     | some f =>
       if f = "table" ∨ f = "json" then []
       else ["outputFormat must be either \x22table\x22 or \x22json\x22"])
  errors

/-! ## Theorems for claims C1, C2, C3 -/

/-- C1: loadConfig resolves every field to the value of the
highest-precedence source that defines it, in ascending precedence
built-in defaults, file, environment, projectOverride (the override
applying only to the project id and only if non-empty); a source that
does not define a field never overwrites a lower source, and with no
file and no environment the project id resolves to "default" and the
endpoint to the well-known local default.  Each conjunct equates a
resolved field with the first defined value in the precedence chain,
read highest precedence first. -/
theorem loadConfig_precedence (f : CLIConfiguration) (e : EnvVars) (o : Option String) :
    (loadConfig f e o).natsUrl = e.NATS_URL.or (f.natsUrl.or (some "nats://localhost:4222")) ∧
    (loadConfig f e o).projectId =
      (overrideLayer o).or (e.PROJECT_ID.or (f.projectId.or (some "default"))) ∧
    (loadConfig f e o).natsCredentials = f.natsCredentials ∧
    (loadConfig f e o).defaultBoundary = f.defaultBoundary ∧
    (loadConfig f e o).defaultPriority = f.defaultPriority.or (some 5) ∧
    (loadConfig f e o).outputFormat = f.outputFormat.or (some "table") ∧
    (loadConfig f e o).apiUrl = e.LOOM_API_URL.or f.apiUrl ∧
    (loadConfig f e o).apiToken = e.LOOM_API_TOKEN.or f.apiToken ∧
    (loadConfig {} {} none).projectId = some "default" ∧
    (loadConfig {} {} none).natsUrl = some "nats://localhost:4222" := by
  cases o with
  | none =>
    simp [loadConfig, mergeConfig, applyProjectOverride, overrideLayer, builtinDefaults,
      DEFAULT_CLI_CONFIG, envLayer, Option.or_assoc]
  | some s =>
    by_cases hs : s = "" <;>
      simp [loadConfig, mergeConfig, applyProjectOverride, overrideLayer, builtinDefaults,
        DEFAULT_CLI_CONFIG, envLayer, Option.or_assoc, hs]

/-- C2: saveConfig shallow-merges the partial payload on top of the
existing file content, so every field of the payload is present in the
written file with the saved value, every existing field not mentioned in
the payload is unchanged, and a subsequent loadConfig (with no
environment variables and no override) resolves every field of the
payload to the saved value and every untouched field through the
existing content. -/
theorem saveConfig_roundtrip (c p : CLIConfiguration) :
    (saveConfig c p).natsUrl = p.natsUrl.or c.natsUrl ∧
    (saveConfig c p).projectId = p.projectId.or c.projectId ∧
    (saveConfig c p).natsCredentials = p.natsCredentials.or c.natsCredentials ∧
    (saveConfig c p).defaultBoundary = p.defaultBoundary.or c.defaultBoundary ∧
    (saveConfig c p).defaultPriority = p.defaultPriority.or c.defaultPriority ∧
    (saveConfig c p).outputFormat = p.outputFormat.or c.outputFormat ∧
    (saveConfig c p).apiUrl = p.apiUrl.or c.apiUrl ∧
    (saveConfig c p).apiToken = p.apiToken.or c.apiToken ∧
    (loadConfig (saveConfig c p) {} none).natsUrl =
      p.natsUrl.or (c.natsUrl.or (some "nats://localhost:4222")) ∧
    (loadConfig (saveConfig c p) {} none).projectId =
      p.projectId.or (c.projectId.or (some "default")) ∧
    (loadConfig (saveConfig c p) {} none).natsCredentials = p.natsCredentials.or c.natsCredentials ∧
    (loadConfig (saveConfig c p) {} none).defaultBoundary = p.defaultBoundary.or c.defaultBoundary ∧
    (loadConfig (saveConfig c p) {} none).defaultPriority =
      p.defaultPriority.or (c.defaultPriority.or (some 5)) ∧
    (loadConfig (saveConfig c p) {} none).outputFormat =
      p.outputFormat.or (c.outputFormat.or (some "table")) ∧
    (loadConfig (saveConfig c p) {} none).apiUrl = p.apiUrl.or c.apiUrl ∧
    (loadConfig (saveConfig c p) {} none).apiToken = p.apiToken.or c.apiToken := by
  simp [saveConfig, loadConfig, mergeConfig, applyProjectOverride, builtinDefaults,
    DEFAULT_CLI_CONFIG, envLayer, Option.or_assoc]

/-- C3: validateConfig checks its four rules independently, without
short-circuiting, accumulating one list of violations (as a total pure
function of the candidate it returns a list on every input and never
raises); in particular a priority of 15 yields exactly the
priority-range violation, an http endpoint yields the scheme violation,
and a blank boundary yields the non-empty-boundary violation. -/
theorem validateConfig_rules (c : CLIConfiguration) :
    validateConfig c =
      natsUrlViolations c ++ priorityViolations c ++ boundaryViolations c ++
        outputFormatViolations c ∧
    validateConfig { defaultPriority := some 15 } =
      ["defaultPriority must be between 1 and 10"] ∧
    validateConfig { natsUrl := some "http://x" } = ["natsUrl must start with nats://"] ∧
    validateConfig { defaultBoundary := some "   " } =
      ["defaultBoundary must be a non-empty string"] := by
  refine ⟨?_, by decide, by decide, by decide⟩
  simp [validateConfig, natsUrlViolations, priorityViolations, boundaryViolations,
    outputFormatViolations]

/-! ## Subject builders (from src/unnamed/part_001 lines 64 to 151, class LoomSubjects) -/

/-- Subject builders for the Loom system; the project id is fixed at
construction. -/
structure LoomSubjects where
  projectId : String
deriving DecidableEq, Repr

def LoomSubjects.workSubmit (s : LoomSubjects) : String :=
  "loom." ++ s.projectId ++ ".work.submit"

def LoomSubjects.workStatus (s : LoomSubjects) (workItemId : String) : String :=
  "loom." ++ s.projectId ++ ".work.status." ++ workItemId

def LoomSubjects.workList (s : LoomSubjects) : String :=
  "loom." ++ s.projectId ++ ".work.list"

def LoomSubjects.workGet (s : LoomSubjects) : String :=
  "loom." ++ s.projectId ++ ".work.get"

def LoomSubjects.workCancel (s : LoomSubjects) : String :=
  "loom." ++ s.projectId ++ ".work.cancel"

def LoomSubjects.agentsList (s : LoomSubjects) : String :=
  "loom." ++ s.projectId ++ ".agents.list"

def LoomSubjects.agentDetails (s : LoomSubjects) (agentGuid : String) : String :=
  "loom." ++ s.projectId ++ ".agents." ++ agentGuid

def LoomSubjects.agentShutdown (s : LoomSubjects) : String :=
  "loom." ++ s.projectId ++ ".agents.shutdown"

def LoomSubjects.targetsList (s : LoomSubjects) : String :=
  "loom." ++ s.projectId ++ ".targets.list"

def LoomSubjects.targetsRegister (s : LoomSubjects) : String :=
  "loom." ++ s.projectId ++ ".targets.register"

def LoomSubjects.targetsGet (s : LoomSubjects) : String :=
  "loom." ++ s.projectId ++ ".targets.get"

def LoomSubjects.targetsUpdate (s : LoomSubjects) : String :=
  "loom." ++ s.projectId ++ ".targets.update"

def LoomSubjects.targetsRemove (s : LoomSubjects) : String :=
  "loom." ++ s.projectId ++ ".targets.remove"

def LoomSubjects.targetsTest (s : LoomSubjects) : String :=
  "loom." ++ s.projectId ++ ".targets.test"

def LoomSubjects.targetsEnable (s : LoomSubjects) : String :=
  "loom." ++ s.projectId ++ ".targets.enable"

def LoomSubjects.targetsDisable (s : LoomSubjects) : String :=
  "loom." ++ s.projectId ++ ".targets.disable"

def LoomSubjects.spinUpTrigger (s : LoomSubjects) : String :=
  "loom." ++ s.projectId ++ ".spinup.trigger"

def LoomSubjects.spinUpStatus (s : LoomSubjects) : String :=
  "loom." ++ s.projectId ++ ".spinup.status"

def LoomSubjects.spinUpList (s : LoomSubjects) : String :=
  "loom." ++ s.projectId ++ ".spinup.list"

def LoomSubjects.stats (s : LoomSubjects) : String :=
  "loom." ++ s.projectId ++ ".stats"

/-- One invocation of a LoomSubjects method, with its string arguments. -/
inductive SubjectCall where
  | workSubmit
  | workStatus (workItemId : String)
  | workList
  | workGet
  | workCancel
  | agentsList
  | agentDetails (agentGuid : String)
  | agentShutdown
  | targetsList
  | targetsRegister
  | targetsGet
  | targetsUpdate
  | targetsRemove
  | targetsTest
  | targetsEnable
  | targetsDisable
  | spinUpTrigger
  | spinUpStatus
  | spinUpList
  | stats
deriving DecidableEq, Repr

/-- Dispatch an invocation to the corresponding LoomSubjects method. -/
def subjectOf (s : LoomSubjects) : SubjectCall → String
  | .workSubmit => s.workSubmit
  | .workStatus workItemId => s.workStatus workItemId
  | .workList => s.workList
  | .workGet => s.workGet
  | .workCancel => s.workCancel
  | .agentsList => s.agentsList
  | .agentDetails agentGuid => s.agentDetails agentGuid
  | .agentShutdown => s.agentShutdown
  | .targetsList => s.targetsList
  | .targetsRegister => s.targetsRegister
  | .targetsGet => s.targetsGet
  | .targetsUpdate => s.targetsUpdate
  | .targetsRemove => s.targetsRemove
  | .targetsTest => s.targetsTest
  | .targetsEnable => s.targetsEnable
  | .targetsDisable => s.targetsDisable
  | .spinUpTrigger => s.spinUpTrigger
  | .spinUpStatus => s.spinUpStatus
  | .spinUpList => s.spinUpList
  | .stats => s.stats

/-- The entity category of an invocation, as it appears in the subject
hierarchy. -/
def SubjectCall.category : SubjectCall → String
  | .workSubmit => "work"
  | .workStatus _ => "work"
  | .workList => "work"
  | .workGet => "work"
  | .workCancel => "work"
  | .agentsList => "agents"
  | .agentDetails _ => "agents"
  | .agentShutdown => "agents"
  | .targetsList => "targets"
  | .targetsRegister => "targets"
  | .targetsGet => "targets"
  | .targetsUpdate => "targets"
  | .targetsRemove => "targets"
  | .targetsTest => "targets"
  | .targetsEnable => "targets"
  | .targetsDisable => "targets"
  | .spinUpTrigger => "spinup"
  | .spinUpStatus => "spinup"
  | .spinUpList => "spinup"
  | .stats => "stats"

/-- A plain subject token: a non-empty string without a dot. -/
def isTok (s : String) : Prop := s.data ≠ [] ∧ '.' ∉ s.data

instance (s : String) : Decidable (isTok s) :=
  inferInstanceAs (Decidable (s.data ≠ [] ∧ '.' ∉ s.data))

/-- The string arguments of an invocation are plain tokens. -/
def SubjectCall.argsOK : SubjectCall → Prop
  | .workStatus workItemId => isTok workItemId
  | .agentDetails agentGuid => isTok agentGuid
  | _ => True

/-- Join a list of tokens (as character lists) with dots between them. -/
def joinC : List (List Char) → List Char
  | [] => []
  | [t] => t
  | t :: ts => t ++ '.' :: joinC ts

/-- Every token in the list is non-empty and free of dots. -/
def TokensOK (ts : List (List Char)) : Prop := ∀ t ∈ ts, t ≠ [] ∧ '.' ∉ t

/-- The dot-separated token list of an invocation for a given project. -/
def tokensOf (p : String) : SubjectCall → List (List Char)
  | .workSubmit => ["loom".data, p.data, "work".data, "submit".data]
  | .workStatus workItemId => ["loom".data, p.data, "work".data, "status".data, workItemId.data]
  | .workList => ["loom".data, p.data, "work".data, "list".data]
  | .workGet => ["loom".data, p.data, "work".data, "get".data]
  | .workCancel => ["loom".data, p.data, "work".data, "cancel".data]
  | .agentsList => ["loom".data, p.data, "agents".data, "list".data]
  | .agentDetails agentGuid => ["loom".data, p.data, "agents".data, agentGuid.data]
  | .agentShutdown => ["loom".data, p.data, "agents".data, "shutdown".data]
  | .targetsList => ["loom".data, p.data, "targets".data, "list".data]
  | .targetsRegister => ["loom".data, p.data, "targets".data, "register".data]
  | .targetsGet => ["loom".data, p.data, "targets".data, "get".data]
  | .targetsUpdate => ["loom".data, p.data, "targets".data, "update".data]
  | .targetsRemove => ["loom".data, p.data, "targets".data, "remove".data]
  | .targetsTest => ["loom".data, p.data, "targets".data, "test".data]
  | .targetsEnable => ["loom".data, p.data, "targets".data, "enable".data]
  | .targetsDisable => ["loom".data, p.data, "targets".data, "disable".data]
  | .spinUpTrigger => ["loom".data, p.data, "spinup".data, "trigger".data]
  | .spinUpStatus => ["loom".data, p.data, "spinup".data, "status".data]
  | .spinUpList => ["loom".data, p.data, "spinup".data, "list".data]
  | .stats => ["loom".data, p.data, "stats".data]

/-- Every produced subject is exactly its token list joined with dots. -/
theorem subjectOf_data (p : String) (c : SubjectCall) :
    (subjectOf ⟨p⟩ c).data = joinC (tokensOf p c) := by
  cases c <;>
    simp [subjectOf, tokensOf, joinC, String.data_append,
      LoomSubjects.workSubmit, LoomSubjects.workStatus, LoomSubjects.workList,
      LoomSubjects.workGet, LoomSubjects.workCancel, LoomSubjects.agentsList,
      LoomSubjects.agentDetails, LoomSubjects.agentShutdown, LoomSubjects.targetsList,
      LoomSubjects.targetsRegister, LoomSubjects.targetsGet, LoomSubjects.targetsUpdate,
      LoomSubjects.targetsRemove, LoomSubjects.targetsTest, LoomSubjects.targetsEnable,
      LoomSubjects.targetsDisable, LoomSubjects.spinUpTrigger, LoomSubjects.spinUpStatus,
      LoomSubjects.spinUpList, LoomSubjects.stats]

/-- Cancellation of the leading token before the first dot: tokens free
of dots followed by a dot determine each other. -/
theorem dot_chunk_inj (a : List Char) : ∀ b ra rb, '.' ∉ a → '.' ∉ b →
    a ++ '.' :: ra = b ++ '.' :: rb → a = b ∧ ra = rb := by
  induction a with
  | nil =>
    intro b ra rb _ hb h
    cases b with
    | nil => simpa using h
    | cons x xs =>
      simp only [List.nil_append, List.cons_append, List.cons.injEq] at h
      exact absurd (show ('.' : Char) ∈ x :: xs by rw [h.1]; exact List.mem_cons_self x xs) hb
  | cons x xs ih =>
    intro b ra rb ha hb h
    cases b with
    | nil =>
      simp only [List.nil_append, List.cons_append, List.cons.injEq] at h
      exact absurd (show ('.' : Char) ∈ x :: xs by rw [← h.1]; exact List.mem_cons_self x xs) ha
    | cons y ys =>
      simp only [List.cons_append, List.cons.injEq] at h
      have ha' : ('.' : Char) ∉ xs := fun hm => ha (List.mem_cons_of_mem x hm)
      have hb' : ('.' : Char) ∉ ys := fun hm => hb (List.mem_cons_of_mem y hm)
      obtain ⟨h1, h2⟩ := ih ys ra rb ha' hb' h.2
      exact ⟨by rw [h.1, h1], h2⟩

/-- Joining with dots is injective on lists of non-empty dot-free
tokens. -/
theorem joinC_inj (t1 : List (List Char)) : ∀ t2, TokensOK t1 → TokensOK t2 →
    joinC t1 = joinC t2 → t1 = t2 := by
  induction t1 with
  | nil =>
    intro t2 _ h2 h
    cases t2 with
    | nil => rfl
    | cons u us =>
      cases us with
      | nil => exact absurd (by simpa [joinC] using h.symm) (h2 u (by simp)).1
      | cons v vs => simp [joinC] at h
  | cons a t1' ih =>
    intro t2 h1 h2 h
    cases t1' with
    | nil =>
      cases t2 with
      | nil => exact absurd (by simpa [joinC] using h) (h1 a (by simp)).1
      | cons u us =>
        cases us with
        | nil => simp only [joinC] at h; rw [h]
        | cons v vs =>
          simp only [joinC] at h
          have hmem : ('.' : Char) ∈ u ++ '.' :: joinC (v :: vs) := by simp
          rw [← h] at hmem
          exact absurd hmem (h1 a (by simp)).2
    | cons b t1'' =>
      cases t2 with
      | nil => simp [joinC] at h
      | cons u us =>
        cases us with
        | nil =>
          simp only [joinC] at h
          have hmem : ('.' : Char) ∈ a ++ '.' :: joinC (b :: t1'') := by simp
          rw [h] at hmem
          exact absurd hmem (h2 u (by simp)).2
        | cons v vs =>
          simp only [joinC] at h
          obtain ⟨hau, hrest⟩ :=
            dot_chunk_inj a u (joinC (b :: t1'')) (joinC (v :: vs))
              (h1 a (by simp)).2 (h2 u (by simp)).2 h
          have htail := ih (v :: vs) (fun t ht => h1 t (by simp [ht]))
            (fun t ht => h2 t (by simp [ht])) hrest
          rw [hau, htail]

/-- The token lists of the methods contain only non-empty dot-free
tokens, given a token project id and token arguments. -/
theorem tokensOf_ok (p : String) (c : SubjectCall) (hp : isTok p) (hc : c.argsOK) :
    TokensOK (tokensOf p c) := by
  cases c <;> (intro t ht; fin_cases ht) <;> first | decide | exact hp | exact hc

/-- The second token of every subject is the project id. -/
theorem tokensOf_getOne (p : String) (c : SubjectCall) :
    (tokensOf p c).get? 1 = some p.data := by
  cases c <;> rfl

/-- The third token of every subject is the entity category. -/
theorem tokensOf_getTwo (p : String) (c : SubjectCall) :
    (tokensOf p c).get? 2 = some c.category.data := by
  cases c <;> rfl

/-- The five entity categories of the subject hierarchy. -/
def categories : List String := ["work", "agents", "targets", "spinup", "stats"]

/-- The subject shape asserted by the specification: a root token, the
project id, one of the five categories, an operation token, then
optionally an entity id. -/
def claimedShape (proj s : String) : Prop :=
  ∃ cat op : String, cat ∈ categories ∧ isTok op ∧
    (s = "loom" ++ "." ++ proj ++ "." ++ cat ++ "." ++ op ∨
      ∃ id : String, s = "loom" ++ "." ++ proj ++ "." ++ cat ++ "." ++ op ++ "." ++ id)

/-- C4 counterexample: the stats subject of project p is loom.p.stats,
which has no operation token after its category, so it does not have the
claimed shape root.project.category.operation with optional id. -/
theorem stats_shape_counterexample : ¬ claimedShape "p" ((LoomSubjects.mk "p").stats) := by
  rintro ⟨cat, op, hcat, hop, hdisj⟩
  have hcat0 : cat.data.count '.' = 0 := by
    have hmem : cat = "work" ∨ cat = "agents" ∨ cat = "targets" ∨ cat = "spinup" ∨
        cat = "stats" := by simpa [categories] using hcat
    rcases hmem with rfl | rfl | rfl | rfl | rfl <;> decide
  have hop0 : op.data.count '.' = 0 := List.count_eq_zero.mpr hop.2
  have hstats : ((LoomSubjects.mk "p").stats).data.count '.' = 2 := by decide
  have l0 : ("loom" : String).data.count '.' = 0 := by decide
  have l1 : ("." : String).data.count '.' = 1 := by decide
  have lp : ("p" : String).data.count '.' = 0 := by decide
  rcases hdisj with heq | ⟨id, heq⟩
  · rw [heq] at hstats
    simp only [String.data_append, List.count_append, l0, l1, lp, hcat0, hop0] at hstats
    omega
  · rw [heq] at hstats
    simp only [String.data_append, List.count_append, l0, l1, lp, hcat0, hop0] at hstats
    omega

/-- C4 amended: every LoomSubjects method other than stats produces a
subject of the shape root.project.category.operation with optional id
(for agentDetails the entity id itself stands in the operation
position), provided its id argument is a plain token; stats produces
loom.project.stats, with a category but no operation token. -/
theorem loomSubjects_shape (p : String) (c : SubjectCall) (hc : c.argsOK) :
    (c ≠ SubjectCall.stats → claimedShape p (subjectOf ⟨p⟩ c)) ∧
    subjectOf ⟨p⟩ SubjectCall.stats = "loom." ++ p ++ ".stats" := by
  refine ⟨fun hne => ?_, rfl⟩
  cases c with
  | workSubmit =>
    exact ⟨"work", "submit", by decide, by decide, Or.inl (by
      apply String.ext; simp [subjectOf, LoomSubjects.workSubmit, String.data_append])⟩
  | workStatus workItemId =>
    exact ⟨"work", "status", by decide, by decide, Or.inr ⟨workItemId, by
      apply String.ext; simp [subjectOf, LoomSubjects.workStatus, String.data_append]⟩⟩
  | workList =>
    exact ⟨"work", "list", by decide, by decide, Or.inl (by
      apply String.ext; simp [subjectOf, LoomSubjects.workList, String.data_append])⟩
  | workGet =>
    exact ⟨"work", "get", by decide, by decide, Or.inl (by
      apply String.ext; simp [subjectOf, LoomSubjects.workGet, String.data_append])⟩
  | workCancel =>
    exact ⟨"work", "cancel", by decide, by decide, Or.inl (by
      apply String.ext; simp [subjectOf, LoomSubjects.workCancel, String.data_append])⟩
  | agentsList =>
    exact ⟨"agents", "list", by decide, by decide, Or.inl (by
      apply String.ext; simp [subjectOf, LoomSubjects.agentsList, String.data_append])⟩
  | agentDetails agentGuid =>
    exact ⟨"agents", agentGuid, by decide, hc, Or.inl (by
      apply String.ext; simp [subjectOf, LoomSubjects.agentDetails, String.data_append])⟩
  | agentShutdown =>
    exact ⟨"agents", "shutdown", by decide, by decide, Or.inl (by
      apply String.ext; simp [subjectOf, LoomSubjects.agentShutdown, String.data_append])⟩
  | targetsList =>
    exact ⟨"targets", "list", by decide, by decide, Or.inl (by
      apply String.ext; simp [subjectOf, LoomSubjects.targetsList, String.data_append])⟩
  | targetsRegister =>
    exact ⟨"targets", "register", by decide, by decide, Or.inl (by
      apply String.ext; simp [subjectOf, LoomSubjects.targetsRegister, String.data_append])⟩
  | targetsGet =>
    exact ⟨"targets", "get", by decide, by decide, Or.inl (by
      apply String.ext; simp [subjectOf, LoomSubjects.targetsGet, String.data_append])⟩
  | targetsUpdate =>
    exact ⟨"targets", "update", by decide, by decide, Or.inl (by
      apply String.ext; simp [subjectOf, LoomSubjects.targetsUpdate, String.data_append])⟩
  | targetsRemove =>
    exact ⟨"targets", "remove", by decide, by decide, Or.inl (by
      apply String.ext; simp [subjectOf, LoomSubjects.targetsRemove, String.data_append])⟩
  | targetsTest =>
    exact ⟨"targets", "test", by decide, by decide, Or.inl (by
      apply String.ext; simp [subjectOf, LoomSubjects.targetsTest, String.data_append])⟩
  | targetsEnable =>
    exact ⟨"targets", "enable", by decide, by decide, Or.inl (by
      apply String.ext; simp [subjectOf, LoomSubjects.targetsEnable, String.data_append])⟩
  | targetsDisable =>
    exact ⟨"targets", "disable", by decide, by decide, Or.inl (by
      apply String.ext; simp [subjectOf, LoomSubjects.targetsDisable, String.data_append])⟩
  | spinUpTrigger =>
    exact ⟨"spinup", "trigger", by decide, by decide, Or.inl (by
      apply String.ext; simp [subjectOf, LoomSubjects.spinUpTrigger, String.data_append])⟩
  | spinUpStatus =>
    exact ⟨"spinup", "status", by decide, by decide, Or.inl (by
      apply String.ext; simp [subjectOf, LoomSubjects.spinUpStatus, String.data_append])⟩
  | spinUpList =>
    exact ⟨"spinup", "list", by decide, by decide, Or.inl (by
      apply String.ext; simp [subjectOf, LoomSubjects.spinUpList, String.data_append])⟩
  | stats => exact absurd rfl hne

/-- Witness for the amended C4 theorem at concrete inputs. -/
theorem loomSubjects_shape_witness :
    claimedShape "p" (subjectOf ⟨"p"⟩ (SubjectCall.workStatus "w1")) ∧
    subjectOf ⟨"p"⟩ SubjectCall.stats = "loom." ++ "p" ++ ".stats" :=
  ⟨(loomSubjects_shape "p" (SubjectCall.workStatus "w1")
      (show isTok "w1" from ⟨by decide, by decide⟩)).1 (by decide),
   (loomSubjects_shape "p" SubjectCall.stats trivial).2⟩

/-- C5 counterexample: two invocations that differ in project id and in
category can produce byte-identical subject strings when ids contain
dots, because agentDetails inlines the raw guid after the category. -/
theorem subject_collision_counterexample :
    subjectOf ⟨"x"⟩ (SubjectCall.agentDetails "foo.work.submit") =
      subjectOf ⟨"x.agents.foo"⟩ SubjectCall.workSubmit ∧
    ("x" : String) ≠ "x.agents.foo" ∧
    (SubjectCall.agentDetails "foo.work.submit").category ≠
      SubjectCall.workSubmit.category := by
  refine ⟨by decide, by decide, by decide⟩

/-- C5 amended: on dot-free non-empty project ids and entity ids the
subject builders are deterministic (identical method, project and
arguments give identical strings) and collision-free: two invocations
that differ in project id or in entity category give distinct subject
strings. -/
theorem subjects_deterministic_injective (p1 p2 : String) (c1 c2 : SubjectCall)
    (hp1 : isTok p1) (hp2 : isTok p2) (hc1 : c1.argsOK) (hc2 : c2.argsOK) :
    (p1 = p2 → c1 = c2 → subjectOf ⟨p1⟩ c1 = subjectOf ⟨p2⟩ c2) ∧
    ((p1 ≠ p2 ∨ c1.category ≠ c2.category) → subjectOf ⟨p1⟩ c1 ≠ subjectOf ⟨p2⟩ c2) := by
  constructor
  · rintro rfl rfl; rfl
  · rintro hdiff heq
    have hdata := congrArg String.data heq
    rw [subjectOf_data, subjectOf_data] at hdata
    have htok := joinC_inj (tokensOf p1 c1) (tokensOf p2 c2)
      (tokensOf_ok p1 c1 hp1 hc1) (tokensOf_ok p2 c2 hp2 hc2) hdata
    have h1 := congrArg (fun l => l.get? 1) htok
    have h2 := congrArg (fun l => l.get? 2) htok
    simp only [tokensOf_getOne, tokensOf_getTwo, Option.some.injEq] at h1 h2
    rcases hdiff with hp | hcat
    · exact hp (String.ext h1)
    · exact hcat (String.ext h2)

/-- Witness for the amended C5 theorem at concrete inputs. -/
theorem subjects_deterministic_injective_witness :
    subjectOf ⟨"a"⟩ SubjectCall.workSubmit ≠ subjectOf ⟨"b"⟩ SubjectCall.workSubmit :=
  (subjects_deterministic_injective "a" "b" SubjectCall.workSubmit SubjectCall.workSubmit
    (show isTok "a" from ⟨by decide, by decide⟩)
    (show isTok "b" from ⟨by decide, by decide⟩)
    trivial trivial).2 (Or.inl (by decide))

/-! ## NATS client connection helpers (two generations) -/

/-- A NATS connection handle; `closed` is what isClosed() reports. -/
structure NatsConnection where
  connId : Nat
  closed : Bool
deriving DecidableEq, Repr

/-- The isClosed() accessor of the client library. -/
def NatsConnection.isClosed (c : NatsConnection) : Bool := c.closed

/-- The connection options record both generations pass to connect();
the authenticator carries the credential file content when one is
configured. -/
structure ConnectionOptions where
  servers : String
  name : String
  maxReconnectAttempts : Nat
  reconnectTimeWait : Nat
  authenticator : Option String := none
deriving DecidableEq, Repr

/-- Result of one getNATSConnection call: the returned connection, the
cache cell after the call, and the options passed to connect() when a
new connection was established (`none` on a cache hit). -/
structure GetConnResult where
  conn : NatsConnection
  cache : Option NatsConnection
  connected : Option ConnectionOptions
deriving DecidableEq, Repr

/-- The observable steps of closeNATSConnection, in order. -/
inductive CloseAction where
  | drain
  | close
deriving DecidableEq, Repr

/-- Whether the cache currently holds an open connection (the guard
`cachedConnection && !cachedConnection.isClosed()`). -/
def cacheOpen (cached : Option NatsConnection) : Bool :=
  match cached with
  | some c => !c.isClosed
  | none => false

namespace NatsV0

/-- From src/unnamed/part_000 lines 26 to 31: the connection options of
the first generation (no credential support; the credential branch is
commented out). -/
def connectionOptions (config : CLIConfiguration) : ConnectionOptions :=
  { servers := jsFalsyOrString config.natsUrl "nats://localhost:4222"
    name := "loom-shuttle"
    maxReconnectAttempts := 10
    reconnectTimeWait := 1000 }

/-- From src/unnamed/part_000 lines 19 to 42: create or get the cached
NATS connection.  The module-level cache cell is passed and returned
explicitly; `fresh` stands for the connection connect() would create. -/
def getNATSConnection (config : CLIConfiguration) (fresh : NatsConnection)
    (cached : Option NatsConnection) : GetConnResult :=
  match cached with
  | some c =>
    if c.isClosed then ⟨fresh, some fresh, some (connectionOptions config)⟩
    else ⟨c, some c, none⟩
  | none => ⟨fresh, some fresh, some (connectionOptions config)⟩

end NatsV0

namespace NatsV1

/-- From src/unnamed/part_001 lines 27 to 32: the base connection
options of the second generation. -/
def connectionOptions (config : CLIConfiguration) : ConnectionOptions :=
  { servers := jsFalsyOrString config.natsUrl "nats://localhost:4222"
    name := "loom-shuttle"
    maxReconnectAttempts := 10
    reconnectTimeWait := 1000 }

/-- From src/unnamed/part_001 lines 27 to 47: the connection path taken
on a cache miss.  When a credential file path is configured its content
is read through `fs` and installed as the authenticator; a failing read
becomes an error naming the path. -/
def connectWithOptions (fs : String → Except String String) (config : CLIConfiguration)
    (fresh : NatsConnection) : Except String GetConnResult :=
  let base := connectionOptions config
  match config.natsCredentials with
  | none => Except.ok ⟨fresh, some fresh, some base⟩
  | some path =>
    match fs path with
    | Except.ok credsContent =>
      Except.ok ⟨fresh, some fresh, some { base with authenticator := some credsContent }⟩
    | Except.error e =>
      Except.error ("Failed to read NATS credentials file: " ++ path ++ ": " ++ e)

/-- From src/unnamed/part_001 lines 20 to 48: create or get the cached
NATS connection, second generation.  The file system is passed as `fs`
and the module-level cache cell explicitly. -/
def getNATSConnection (fs : String → Except String String) (config : CLIConfiguration)
    (fresh : NatsConnection) (cached : Option NatsConnection) : Except String GetConnResult :=
  match cached with
  | some c =>
    if c.isClosed then connectWithOptions fs config fresh
    else Except.ok ⟨c, some c, none⟩
  | none => connectWithOptions fs config fresh

/-- From src/unnamed/part_001 lines 53 to 59: close the NATS connection,
draining first; the cache is cleared only when an open connection was
present. -/
def closeNATSConnection (cached : Option NatsConnection) :
    List CloseAction × Option NatsConnection :=
  match cached with
  | some c =>
    if c.isClosed then ([], some c)
    else ([CloseAction.drain, CloseAction.close], none)
  | none => ([], none)

end NatsV1

/-- On every cache miss the second-generation helper either fails on the
credential read or returns the fresh connection, caches it and passes
options to connect(). -/
theorem connectWithOptions_ok (fs : String → Except String String) (config : CLIConfiguration)
    (fresh : NatsConnection) (r : GetConnResult)
    (hr : NatsV1.connectWithOptions fs config fresh = Except.ok r) :
    r.conn = fresh ∧ r.cache = some fresh ∧ r.connected.isSome = true := by
  rcases hcr : config.natsCredentials with _ | path
  · simp only [NatsV1.connectWithOptions, hcr, Except.ok.injEq] at hr
    rw [← hr]
    exact ⟨rfl, rfl, rfl⟩
  · cases hfs : fs path with
    | ok credsContent =>
      simp only [NatsV1.connectWithOptions, hcr, hfs, Except.ok.injEq] at hr
      rw [← hr]
      exact ⟨rfl, rfl, rfl⟩
    | error e =>
      simp only [NatsV1.connectWithOptions, hcr, hfs] at hr
      exact absurd hr (by simp)

/-- C6: the connection cache is a state machine: an acquisition while
the cached connection exists and is not closed returns that instance
and leaves the cache untouched without connecting; otherwise a
connection is established and stored in the cache; closing an open
connection drains then closes it and resets the cache; and after a
close a subsequent successful acquisition always establishes a fresh
connection. -/
theorem nats_connection_cache (fs : String → Except String String) (config : CLIConfiguration)
    (fresh c : NatsConnection) (cached : Option NatsConnection) :
    (c.isClosed = false →
      NatsV1.getNATSConnection fs config fresh (some c) = Except.ok ⟨c, some c, none⟩) ∧
    (c.isClosed = true → ∀ r, NatsV1.getNATSConnection fs config fresh (some c) = Except.ok r →
      r.conn = fresh ∧ r.cache = some fresh ∧ r.connected.isSome = true) ∧
    (∀ r, NatsV1.getNATSConnection fs config fresh none = Except.ok r →
      r.conn = fresh ∧ r.cache = some fresh ∧ r.connected.isSome = true) ∧
    (c.isClosed = false →
      NatsV1.closeNATSConnection (some c) = ([CloseAction.drain, CloseAction.close], none)) ∧
    (∀ r, NatsV1.getNATSConnection fs config fresh (NatsV1.closeNATSConnection cached).2 =
      Except.ok r → r.conn = fresh ∧ r.connected.isSome = true) := by
  refine ⟨fun h => ?_, fun h r hr => ?_, fun r hr => ?_, fun h => ?_, fun r hr => ?_⟩
  · simp [NatsV1.getNATSConnection, h]
  · simp only [NatsV1.getNATSConnection, h, if_true] at hr
    exact connectWithOptions_ok fs config fresh r hr
  · simp only [NatsV1.getNATSConnection] at hr
    exact connectWithOptions_ok fs config fresh r hr
  · simp [NatsV1.closeNATSConnection, h]
  · rcases cached with _ | c0
    · simp only [NatsV1.closeNATSConnection, NatsV1.getNATSConnection] at hr
      obtain ⟨h1, _, h3⟩ := connectWithOptions_ok fs config fresh r hr
      exact ⟨h1, h3⟩
    · by_cases h0 : c0.isClosed
      · simp only [NatsV1.closeNATSConnection, NatsV1.getNATSConnection, h0, if_true] at hr
        obtain ⟨h1, _, h3⟩ := connectWithOptions_ok fs config fresh r hr
        exact ⟨h1, h3⟩
      · simp only [NatsV1.closeNATSConnection, NatsV1.getNATSConnection, h0,
          Bool.false_eq_true, if_false] at hr
        obtain ⟨h1, _, h3⟩ := connectWithOptions_ok fs config fresh r hr
        exact ⟨h1, h3⟩

/-- Witness for the C6 theorem at concrete inputs: a warm open cache is
returned unchanged, and closing an open connection drains, closes and
clears the cache. -/
theorem nats_connection_cache_witness :
    NatsV1.getNATSConnection (fun _ => Except.error "nope") {} ⟨1, false⟩ (some ⟨0, false⟩) =
      Except.ok ⟨⟨0, false⟩, some ⟨0, false⟩, none⟩ ∧
    NatsV1.closeNATSConnection (some ⟨0, false⟩) =
      ([CloseAction.drain, CloseAction.close], none) :=
  ⟨(nats_connection_cache (fun _ => Except.error "nope") {} ⟨1, false⟩ ⟨0, false⟩ none).1 rfl,
   (nats_connection_cache (fun _ => Except.error "nope") {} ⟨1, false⟩ ⟨0, false⟩ none).2.2.2.1 rfl⟩

/-- C7: with a credential file path configured, connection
establishment reads the file and installs its content as the
authenticator, and a failing read raises an error that names the failed
credential path; with no credential path configured the helper never
touches the file system (its result does not depend on it). -/
theorem nats_credentials (fs fs2 : String → Except String String) (config : CLIConfiguration)
    (fresh : NatsConnection) (cached : Option NatsConnection) (path content e : String) :
    (config.natsCredentials = none →
      NatsV1.getNATSConnection fs config fresh cached =
        NatsV1.getNATSConnection fs2 config fresh cached) ∧
    (config.natsCredentials = some path → cacheOpen cached = false →
      fs path = Except.ok content →
      NatsV1.getNATSConnection fs config fresh cached = Except.ok
        ⟨fresh, some fresh,
          some { NatsV1.connectionOptions config with authenticator := some content }⟩) ∧
    (config.natsCredentials = some path → cacheOpen cached = false →
      fs path = Except.error e →
      NatsV1.getNATSConnection fs config fresh cached =
        Except.error ("Failed to read NATS credentials file: " ++ path ++ ": " ++ e) ∧
      path.data <:+: ("Failed to read NATS credentials file: " ++ path ++ ": " ++ e).data) := by
  refine ⟨fun hnone => ?_, fun hsome hmiss hok => ?_, fun hsome hmiss herr => ?_⟩
  · rcases cached with _ | c0
    · simp [NatsV1.getNATSConnection, NatsV1.connectWithOptions, hnone]
    · by_cases h0 : c0.isClosed <;>
        simp [NatsV1.getNATSConnection, NatsV1.connectWithOptions, hnone, h0]
  · rcases cached with _ | c0
    · simp [NatsV1.getNATSConnection, NatsV1.connectWithOptions, hsome, hok]
    · have h0 : c0.isClosed = true := by simp [cacheOpen] at hmiss; exact hmiss
      simp [NatsV1.getNATSConnection, NatsV1.connectWithOptions, hsome, hok, h0]
  · constructor
    · rcases cached with _ | c0
      · simp [NatsV1.getNATSConnection, NatsV1.connectWithOptions, hsome, herr]
      · have h0 : c0.isClosed = true := by simp [cacheOpen] at hmiss; exact hmiss
        simp [NatsV1.getNATSConnection, NatsV1.connectWithOptions, hsome, herr, h0]
    · exact ⟨("Failed to read NATS credentials file: " : String).data, (": " ++ e).data,
        by simp [String.data_append]⟩

/-- Witness for the C7 theorem at concrete inputs: a failing credential
read surfaces an error naming the configured path. -/
theorem nats_credentials_witness :
    NatsV1.getNATSConnection (fun _ => Except.error "denied")
      { natsCredentials := some "creds" } ⟨1, false⟩ none =
      Except.error ("Failed to read NATS credentials file: " ++ "creds" ++ ": " ++ "denied") :=
  ((nats_credentials (fun _ => Except.error "denied") (fun _ => Except.error "denied")
    { natsCredentials := some "creds" } ⟨1, false⟩ none "creds" "c" "denied").2.2
    rfl rfl rfl).1

/-- C9: with no credential file path configured, the two generations of
the NATS client helper agree: the second generation never fails and
returns exactly what the first returns, both build the same connection
options, and those options default the server to the well-known local
endpoint when none is configured, name the client loom-shuttle, and
bound reconnection to 10 attempts spaced 1000 milliseconds apart. -/
theorem nats_generations_equivalent (config : CLIConfiguration)
    (fs : String → Except String String) (fresh : NatsConnection)
    (cached : Option NatsConnection) (h : config.natsCredentials = none) :
    NatsV1.getNATSConnection fs config fresh cached =
      Except.ok (NatsV0.getNATSConnection config fresh cached) ∧
    NatsV1.connectionOptions config = NatsV0.connectionOptions config ∧
    (config.natsUrl = none →
      (NatsV0.connectionOptions config).servers = "nats://localhost:4222") ∧
    (NatsV0.connectionOptions config).name = "loom-shuttle" ∧
    (NatsV0.connectionOptions config).maxReconnectAttempts = 10 ∧
    (NatsV0.connectionOptions config).reconnectTimeWait = 1000 := by
  refine ⟨?_, rfl, fun hn => by simp [NatsV0.connectionOptions, jsFalsyOrString, hn],
    rfl, rfl, rfl⟩
  rcases cached with _ | c0
  · simp [NatsV1.getNATSConnection, NatsV1.connectWithOptions, NatsV0.getNATSConnection, h,
      NatsV1.connectionOptions, NatsV0.connectionOptions]
  · by_cases h0 : c0.isClosed <;>
      simp [NatsV1.getNATSConnection, NatsV1.connectWithOptions, NatsV0.getNATSConnection, h, h0,
        NatsV1.connectionOptions, NatsV0.connectionOptions]

/-- Witness for the C9 theorem at concrete inputs. -/
theorem nats_generations_equivalent_witness :
    NatsV1.getNATSConnection (fun _ => Except.error "x") {} ⟨1, false⟩ none =
      Except.ok (NatsV0.getNATSConnection {} ⟨1, false⟩ none) :=
  (nats_generations_equivalent {} (fun _ => Except.error "x") ⟨1, false⟩ none rfl).1

/-! ## Response envelope and command-layer error surfacing -/

/-- The uniform success or failure wrapper returned by the transport;
exactly the fields the command layer error paths consult. -/
structure ResponseEnvelope where
  ok : Bool
  status : Nat
  error : Option String
deriving DecidableEq, Repr

/-- Modelled from the spec: api/client.ts is absent from the repository
snapshot (only its callers remain).  Binding B maps 2xx responses into
the success variant and every other status into the failure variant of
the envelope rather than raising. -/
def envelopeOfStatus (status : Nat) (err : Option String) : ResponseEnvelope :=
  if 200 ≤ status ∧ status < 300 then ⟨true, status, none⟩ else ⟨false, status, err⟩

/-- From src/src/commands/targets.ts lines 267 to 272: the message of
the error thrown by targetsShowCommand on a failure envelope, with a
dedicated not-found message for status 404 (`none` when the envelope is
a success and nothing is thrown). -/
def targetsShowErrorMessage (target : String) (resp : ResponseEnvelope) : Option String :=
  if resp.ok then none
  else if resp.status = 404 then some ("Target not found: " ++ target)
  else some (jsFalsyOrString resp.error ("HTTP " ++ toString resp.status))

/-- From src/unnamed/part_002 lines 276 to 282: the message of the error
thrown by workShowAction on a failure envelope; there is no 404 case,
every failure status gets the generic message. -/
def workShowErrorMessage (resp : ResponseEnvelope) : Option String :=
  if resp.ok then none
  else some (jsFalsyOrString resp.error ("HTTP " ++ toString resp.status))

/-- C8 counterexample: for a work item, a 404 failure envelope with no
remote-provided error text surfaces the same generic HTTP-status
message used for a 500, and the message does not name the requested
work item, so the not-found path is not distinct for work items. -/
theorem workShow_notFound_counterexample :
    workShowErrorMessage ⟨false, 404, none⟩ = some "HTTP 404" ∧
    workShowErrorMessage ⟨false, 500, none⟩ = some "HTTP 500" ∧
    ¬ (("w1" : String).data <:+: ("HTTP 404" : String).data) := by
  refine ⟨by decide, by decide, by decide⟩

/-- C8 amended: a 404 failure envelope is surfaced by targetsShowCommand
as the distinct message naming the missing target, different from the
generic message of other statuses, while workShowAction surfaces every
failure status, 404 included, through the one generic message
(remote-provided error text, or the HTTP status); the envelope of a 404
response carries ok false and status 404. -/
theorem notFound_handling (target : String) (resp : ResponseEnvelope) (err : Option String)
    (h : resp.ok = false) :
    (resp.status = 404 →
      targetsShowErrorMessage target resp = some ("Target not found: " ++ target) ∧
      target.data <:+: ("Target not found: " ++ target).data) ∧
    (resp.status ≠ 404 → targetsShowErrorMessage target resp =
      some (jsFalsyOrString resp.error ("HTTP " ++ toString resp.status))) ∧
    workShowErrorMessage resp =
      some (jsFalsyOrString resp.error ("HTTP " ++ toString resp.status)) ∧
    (envelopeOfStatus 404 err).ok = false ∧ (envelopeOfStatus 404 err).status = 404 := by
  refine ⟨fun h404 => ?_, fun hno => ?_, ?_, by simp [envelopeOfStatus], by simp [envelopeOfStatus]⟩
  · exact ⟨by simp [targetsShowErrorMessage, h, h404],
      ⟨("Target not found: " : String).data, [], by simp [String.data_append]⟩⟩
  · simp [targetsShowErrorMessage, h, hno]
  · simp [workShowErrorMessage, h]

/-- Witness for the C8 amended theorem at concrete inputs. -/
theorem notFound_handling_witness :
    targetsShowErrorMessage "t1" ⟨false, 404, none⟩ =
      some ("Target not found: " ++ "t1") :=
  ((notFound_handling "t1" ⟨false, 404, none⟩ none rfl).1 rfl).1

/-! ## Submit command priority resolution -/

/-- Model of the JavaScript expression `v || d` on an optional number:
absent values and zero are falsy and fall through to the default. -/
def jsFalsyOrInt (v : Option Int) (d : Int) : Int :=
  match v with
  | none => d
  | some n => if n = 0 then d else n

/-- From src/unnamed/part_001 lines 226 to 231 (submitCommand): the
priority attached to a non-interactive work submission,
`options.priority || config.defaultPriority || 5`. -/
def resolveSubmitPriority (optionPriority : Option Int) (config : CLIConfiguration) : Int :=
  jsFalsyOrInt optionPriority (jsFalsyOrInt config.defaultPriority 5)

/-- C10 counterexample: an explicitly given priority of 0 is falsy under
the JavaScript or-chain, so it is not the attached priority: the
configured default (or the constant 5) wins instead, and likewise a
configured default of 0 falls through to 5. -/
theorem submit_priority_counterexample :
    resolveSubmitPriority (some 0) { defaultPriority := some 7 } = 7 ∧ (7 : Int) ≠ 0 ∧
    resolveSubmitPriority (some 0) {} = 5 ∧
    resolveSubmitPriority none { defaultPriority := some 0 } = 5 ∧ (5 : Int) ≠ 0 := by
  refine ⟨by decide, by decide, by decide, by decide, by decide⟩

/-- C10 amended: the priority attached to a non-interactive submission
is the value of the priority option when given and non-zero, otherwise
the configured default priority when present and non-zero, otherwise 5;
the priority is therefore always set. -/
theorem resolveSubmitPriority_resolution (opt : Option Int) (config : CLIConfiguration) :
    (∀ n, opt = some n → n ≠ 0 → resolveSubmitPriority opt config = n) ∧
    (∀ d, (opt = none ∨ opt = some 0) → config.defaultPriority = some d → d ≠ 0 →
      resolveSubmitPriority opt config = d) ∧
    ((opt = none ∨ opt = some 0) →
      (config.defaultPriority = none ∨ config.defaultPriority = some 0) →
      resolveSubmitPriority opt config = 5) := by
  refine ⟨fun n hn hn0 => ?_, fun d hopt hd hd0 => ?_, fun hopt hd => ?_⟩
  · simp [resolveSubmitPriority, jsFalsyOrInt, hn, hn0]
  · rcases hopt with rfl | rfl <;> simp [resolveSubmitPriority, jsFalsyOrInt, hd, hd0]
  · rcases hopt with rfl | rfl <;> rcases hd with hd | hd <;>
      simp [resolveSubmitPriority, jsFalsyOrInt, hd]

/-- Witness for the C10 amended theorem at concrete inputs. -/
theorem resolveSubmitPriority_resolution_witness :
    resolveSubmitPriority (some 3) { defaultPriority := some 7 } = 3 :=
  (resolveSubmitPriority_resolution (some 3) { defaultPriority := some 7 }).1 3 rfl (by decide)
